import Mathlib

/-!
Verification development for the daily allowance and countdown engine of the
habit-game web app (a settings page and a main page sharing one storage layout).

The definitions below are a shallow embedding of the TypeScript source in
`src/app/settings/page.tsx` (which contains both the settings page module and
the main `Home` page module).  Timestamps are modelled as integers (milliseconds
since the epoch, as produced by `Date.now()`); `Math.floor` division is
`Int.fdiv`; nullable fields are `Option`; JSON values appearing in persisted
payloads are modelled by the `JVal` type.
-/

/-- One of the four fixed checklist items (`CheckKey` in the source). -/
inductive CheckKey
| prep
| homework
| sleep
| leave
deriving DecidableEq

/-- The checklist state (`DailyChecks` in the source): four named booleans. -/
structure DailyChecks where
  prep : Bool
  homework : Bool
  sleep : Bool
  leave : Bool
deriving DecidableEq

/-- Alarm tone enum (`"beep" | "chime"` in the source). -/
inductive AlarmTone
| beep
| chime
deriving DecidableEq

/-- A JSON value as it can appear in a persisted payload field.  JSON cannot
represent non-finite numbers, so `jnum` carries an exact rational. -/
inductive JVal
| jnull
| jbool (b : Bool)
| jnum (q : ℚ)
| jstr (s : String)
deriving DecidableEq

/-- A civil calendar date (year, month 1..12, day 1..31).  The source keeps
dates as `"YYYY-MM-DD"` strings; we keep the triple and format it separately. -/
structure CivilDate where
  y : Int
  m : Int
  d : Int
deriving DecidableEq

/-- The main page `Settings` type (eight fields, including the weekend
allowance minutes). `parentPin` is kept as a JSON value because the loader
returns whatever truthy payload value passes the 4-digit test. -/
structure Settings where
  carryOverEnabled : Bool
  parentPin : JVal
  alarmTone : AlarmTone
  alarmVolume : Int
  fullCompletionMinutes : Int
  fallbackMinutes : Int
  fullCompletionMinutesWeekend : Int
  fallbackMinutesWeekend : Int
deriving DecidableEq

/-- The settings page `Settings` type: six fields only — it has no weekend
minute fields. -/
structure SettingsS where
  carryOverEnabled : Bool
  parentPin : JVal
  alarmTone : AlarmTone
  alarmVolume : Int
  fullCompletionMinutes : Int
  fallbackMinutes : Int
deriving DecidableEq

/-- `DEFAULT_SETTINGS` of the main page module. -/
def DEFAULT_SETTINGS : Settings :=
  { carryOverEnabled := false
    parentPin := .jstr ("1234")
    alarmTone := .beep
    alarmVolume := 70
    fullCompletionMinutes := 45
    fallbackMinutes := 15
    fullCompletionMinutesWeekend := 45
    fallbackMinutesWeekend := 15 }

/-- `DEFAULT_SETTINGS` of the settings page module. -/
def DEFAULT_SETTINGS_S : SettingsS :=
  { carryOverEnabled := false
    parentPin := .jstr ("1234")
    alarmTone := .beep
    alarmVolume := 70
    fullCompletionMinutes := 45
    fallbackMinutes := 15 }

/-- A daily record (`DailyRecord` in the source).  `lastStartedAt` is the
countdown anchor in epoch milliseconds. -/
structure DailyRecord where
  date : CivilDate
  checks : DailyChecks
  carryInSeconds : Int
  lockedAllocationMinutes : Option Int
  remainingSeconds : Option Int
  isRunning : Bool
  isAlarming : Bool
  lastStartedAt : Option Int
deriving DecidableEq

/-! Calendar arithmetic.  The source derives date keys from `Date` and
`Intl.DateTimeFormat`, i.e. from the proleptic Gregorian calendar.
`daysFromCivil` and `civilFromDays` are the standard era-based conversions
between a civil date and a count of days since 1970-01-01; they model exactly
what the UTC accessors of a JS `Date` compute. -/

/-- Days since 1970-01-01 of a civil (Gregorian) date. -/
def daysFromCivil (c : CivilDate) : Int :=
  let y := if c.m ≤ 2 then c.y - 1 else c.y
  let era := Int.fdiv y 400
  let yoe := y - era * 400
  let mp := if 2 < c.m then c.m - 3 else c.m + 9
  let doy := Int.fdiv (153 * mp + 2) 5 + c.d - 1
  let doe := yoe * 365 + Int.fdiv yoe 4 - Int.fdiv yoe 100 + doy
  era * 146097 + doe - 719468

/-- Civil (Gregorian) date of a count of days since 1970-01-01. -/
def civilFromDays (z0 : Int) : CivilDate :=
  let z := z0 + 719468
  let era := Int.fdiv z 146097
  let doe := z - era * 146097
  let yoe := Int.fdiv (doe - Int.fdiv doe 1460 + Int.fdiv doe 36524 - Int.fdiv doe 146096) 365
  let y := yoe + era * 400
  let doy := doe - (365 * yoe + Int.fdiv yoe 4 - Int.fdiv yoe 100)
  let mp := Int.fdiv (5 * doy + 2) 153
  let d := doy - Int.fdiv (153 * mp + 2) 5 + 1
  let m := if mp < 10 then mp + 3 else mp - 9
  { y := if m ≤ 2 then y + 1 else y, m := m, d := d }

/-- The immediately preceding calendar date.  Models `getYesterdayKey` (both
modules): parse the key to a date, subtract one day, re-derive the civil date. -/
def prevDay (c : CivilDate) : CivilDate :=
  civilFromDays (daysFromCivil c - 1)

/-- JS `getUTCDay()` of a civil date: 0 = Sunday … 6 = Saturday
(1970-01-01 was a Thursday, day 4). -/
def dayOfWeekJs (c : CivilDate) : Int :=
  Int.emod (daysFromCivil c + 4) 7

/-- `isWeekend` of the main page: Sunday (0) or Saturday (6). -/
def isWeekendKey (c : CivilDate) : Bool :=
  decide (dayOfWeekJs c = 0) || decide (dayOfWeekJs c = 6)

/-- `padStart(2, "0")` applied to a month or day number. -/
def pad2 (n : Int) : String :=
  if n < 10 then ("0" ++ toString n) else toString n

/-- Format a civil date as the canonical `"YYYY-MM-DD"` date key. -/
def formatDateKey (c : CivilDate) : String :=
  toString c.y ++ "-" ++ pad2 c.m ++ "-" ++ pad2 c.d

/-- The civil date of an instant (epoch milliseconds) in a time zone with a
fixed offset of `offsetMin` minutes east of UTC. -/
def civilDateOfInstant (ms offsetMin : Int) : CivilDate :=
  civilFromDays (Int.fdiv (ms + offsetMin * 60000) 86400000)

/-- `getTodayKey` of the settings page module: `new Date()` with the local
accessors `getFullYear` / `getMonth` / `getDate`, i.e. the civil date of the
instant in the local execution time zone (modelled by its UTC offset). -/
def getTodayKeyLocal (ms offsetMin : Int) : String :=
  formatDateKey (civilDateOfInstant ms offsetMin)

/-- Asia/Tokyo is UTC+9 with no daylight saving. -/
def tokyoOffsetMinutes : Int := 540

/-- `getTodayKey` of the main page module: `toDateKeyInTokyo(new Date())`,
the civil date of the instant in the Asia/Tokyo calendar. -/
def getTodayKeyTokyo (ms : Int) : String :=
  formatDateKey (civilDateOfInstant ms tokyoOffsetMinutes)

/-! ## Settings loading (both modules) -/

/-- JS truthiness of a JSON value (NaN cannot come out of `JSON.parse`). -/
def truthy : JVal → Bool
  | .jnull => false
  | .jbool b => b
  | .jnum q => !(q == 0)
  | .jstr s => !(s == "")

/-- JS `ToString` of a JSON value, as consumed by `/^\d{4}$/.test(·)`.
Integral numbers are rendered as their decimal digits.  JS renders every
non-integral number with a `.` or an exponent sign, so no such rendering can
match the pure 4-digit pattern; `"."` stands for those renderings (only the
failure to match matters, and both fail). -/
def jsToString : JVal → String
  | .jnull => "null"
  | .jbool b => if b then ("true") else ("false")
  | .jnum q => if q.den == 1 then toString q.num else (".")
  | .jstr s => s

/-- The regex `^\d{4}$`: exactly four ASCII digits. -/
def matchesPinRegex (s : String) : Bool :=
  s.length == 4 && s.toList.all (fun ch => ch.isDigit)

/-- JS `Math.round`: round half toward positive infinity, i.e. the floor of
`q + 1/2`.  For `q = n / d` (with `d > 0`) that floor is exactly
`fdiv (2 * n + d) (2 * d)`; phrasing it through the numerator and denominator
keeps the definition kernel-computable. -/
def jsRound (q : ℚ) : Int :=
  Int.fdiv (2 * q.num + (q.den : Int)) (2 * (q.den : Int))

/-- `Math.max(1, Math.min(180, Math.round(v)))` — the minute clamp. -/
def clampMinutes (q : ℚ) : Int :=
  max 1 (min 180 (jsRound q))

/-- `Math.max(0, Math.min(100, Math.round(v)))` — the volume clamp. -/
def clampVolume (q : ℚ) : Int :=
  max 0 (min 100 (jsRound q))

/-- A numeric settings field: `typeof v === "number" ? clamp(v) : default`. -/
def numField (v : Option JVal) (clamp : ℚ → Int) (dflt : Int) : Int :=
  match v with
  | some (.jnum q) => clamp q
  | _ => dflt

/-- The PIN field: `parsed.parentPin && /^\d{4}$/.test(parsed.parentPin)
? parsed.parentPin : "1234"`. -/
def pinField (v : Option JVal) : JVal :=
  match v with
  | some pv => if truthy pv && matchesPinRegex (jsToString pv) then pv else .jstr ("1234")
  | none => .jstr ("1234")

/-- The tone field: `parsed.alarmTone === "chime" ? "chime" : "beep"`. -/
def toneField (v : Option JVal) : AlarmTone :=
  if v = some (.jstr ("chime")) then .chime else .beep

/-- The carry-over field: `Boolean(parsed.carryOverEnabled)`. -/
def boolField (v : Option JVal) : Bool :=
  match v with
  | some pv => truthy pv
  | none => false

/-- A parsed settings payload: each persisted key may be absent or hold an
arbitrary JSON value (the source casts `JSON.parse` output unchecked). -/
structure Payload where
  carryOverEnabled : Option JVal
  parentPin : Option JVal
  alarmTone : Option JVal
  alarmVolume : Option JVal
  fullCompletionMinutes : Option JVal
  fallbackMinutes : Option JVal
  fullCompletionMinutesWeekend : Option JVal
  fallbackMinutesWeekend : Option JVal
deriving DecidableEq

/-- The persisted settings slot: absent, unparsable JSON, or a parsed object. -/
inductive Stored
| missing
| unparsable
| parsed (p : Payload)
deriving DecidableEq

/-- `loadSettings` of the main page module (eight fields). -/
def loadSettings : Stored → Settings
  | .missing => DEFAULT_SETTINGS
  | .unparsable => DEFAULT_SETTINGS
  | .parsed p =>
    { carryOverEnabled := boolField p.carryOverEnabled
      parentPin := pinField p.parentPin
      alarmTone := toneField p.alarmTone
      alarmVolume := numField p.alarmVolume clampVolume DEFAULT_SETTINGS.alarmVolume
      fullCompletionMinutes :=
        numField p.fullCompletionMinutes clampMinutes DEFAULT_SETTINGS.fullCompletionMinutes
      fallbackMinutes := numField p.fallbackMinutes clampMinutes DEFAULT_SETTINGS.fallbackMinutes
      fullCompletionMinutesWeekend :=
        numField p.fullCompletionMinutesWeekend clampMinutes
          DEFAULT_SETTINGS.fullCompletionMinutesWeekend
      fallbackMinutesWeekend :=
        numField p.fallbackMinutesWeekend clampMinutes DEFAULT_SETTINGS.fallbackMinutesWeekend }

/-- `loadSettings` of the settings page module (six fields, no weekend keys). -/
def loadSettingsS : Stored → SettingsS
  | .missing => DEFAULT_SETTINGS_S
  | .unparsable => DEFAULT_SETTINGS_S
  | .parsed p =>
    { carryOverEnabled := boolField p.carryOverEnabled
      parentPin := pinField p.parentPin
      alarmTone := toneField p.alarmTone
      alarmVolume := numField p.alarmVolume clampVolume DEFAULT_SETTINGS_S.alarmVolume
      fullCompletionMinutes :=
        numField p.fullCompletionMinutes clampMinutes DEFAULT_SETTINGS_S.fullCompletionMinutes
      fallbackMinutes := numField p.fallbackMinutes clampMinutes DEFAULT_SETTINGS_S.fallbackMinutes }

/-- Serialization of an alarm tone. -/
def toneString : AlarmTone → String
  | .beep => "beep"
  | .chime => "chime"

/-- `JSON.stringify` of a settings page `Settings` value, viewed through the
payload lens: exactly the six keys of that type are present; the weekend keys
are absent from the written object. -/
def serializeSettingsS (s : SettingsS) : Payload :=
  { carryOverEnabled := some (.jbool s.carryOverEnabled)
    parentPin := some s.parentPin
    alarmTone := some (.jstr (toneString s.alarmTone))
    alarmVolume := some (.jnum (s.alarmVolume : ℚ))
    fullCompletionMinutes := some (.jnum (s.fullCompletionMinutes : ℚ))
    fallbackMinutes := some (.jnum (s.fallbackMinutes : ℚ))
    fullCompletionMinutesWeekend := none
    fallbackMinutesWeekend := none }

/-- `toggleCarry` of the settings page: replace the carry-over flag. -/
def toggleCarry (s : SettingsS) (value : Bool) : SettingsS :=
  { s with carryOverEnabled := value }

/-! ## Day records and rollover -/

/-- `getDefaultChecks()` / `DEFAULT_CHECKS`: all four items false. -/
def defaultChecks : DailyChecks :=
  { prep := false, homework := false, sleep := false, leave := false }

/-- `createRecordForDate(dateKey, records, settings)` of the main page.
An existing record for the date is returned with its alarming flag passed
through `Boolean(·)` (the identity on an actual boolean); otherwise a fresh
record is built, with carry-in seconds taken from the prior-day remaining when
carry-over is enabled, yesterday exists, and its remaining is truthy and
positive. -/
def createRecordForDate (dateKey : CivilDate) (records : CivilDate → Option DailyRecord)
    (s : Settings) : DailyRecord :=
  match records dateKey with
  | some existing => { existing with isAlarming := existing.isAlarming }
  | none =>
    let carryInSeconds :=
      match records (prevDay dateKey) with
      | some yesterday =>
        match yesterday.remainingSeconds with
        | some rem => if s.carryOverEnabled && !(rem == 0) && decide (0 < rem) then rem else 0
        | none => 0
      | none => 0
    { date := dateKey
      checks := defaultChecks
      carryInSeconds := carryInSeconds
      lockedAllocationMinutes := none
      remainingSeconds := none
      isRunning := false
      isAlarming := false
      lastStartedAt := none }

/-- `records[dateKey] = r` — the store update the callers perform after
`createRecordForDate`. -/
def updateRecords (records : CivilDate → Option DailyRecord) (dateKey : CivilDate)
    (r : DailyRecord) : CivilDate → Option DailyRecord :=
  fun k => if k = dateKey then some r else records k

/-! ## Countdown engine (main page) -/

/-- `Object.values(checks).every(Boolean)`. -/
def allChecks (c : DailyChecks) : Bool :=
  c.prep && c.homework && c.sleep && c.leave

/-- `allocationFromChecks(checks, settings, weekend)`. -/
def allocationFromChecks (c : DailyChecks) (s : Settings) (weekend : Bool) : Int :=
  if allChecks c then
    if weekend then s.fullCompletionMinutesWeekend else s.fullCompletionMinutes
  else
    if weekend then s.fallbackMinutesWeekend else s.fallbackMinutes

/-- The `baseSeconds` computed by `startTimer`: the current remaining, or
`allocation * 60 + carryInSeconds` when remaining is null, where the allocation
is the locked one if set, else `allocationFromChecks` for today. -/
def effectiveBaseSeconds (r : DailyRecord) (s : Settings) : Int :=
  let allocation :=
    r.lockedAllocationMinutes.getD (allocationFromChecks r.checks s (isWeekendKey r.date))
  match r.remainingSeconds with
  | none => allocation * 60 + r.carryInSeconds
  | some rem => rem

/-- `startTimer(skipConfirm)` of the main page.  Without `skipConfirm`, an
incomplete checklist only opens the confirmation dialog (record unchanged).
Note the source has no guard against the record already running. -/
def startTimer (r : DailyRecord) (s : Settings) (now : Int) (skipConfirm : Bool) : DailyRecord :=
  if !skipConfirm && !(allChecks r.checks) then r
  else if effectiveBaseSeconds r s ≤ 0 then r
  else
    { r with
      lockedAllocationMinutes :=
        some (r.lockedAllocationMinutes.getD
          (allocationFromChecks r.checks s (isWeekendKey r.date)))
      remainingSeconds := some (effectiveBaseSeconds r s)
      isRunning := true
      isAlarming := false
      lastStartedAt := some now }

/-- The per-second tick interval body of the main page (`setToday` updater):
no-op unless running with a truthy anchor and non-null remaining; otherwise
subtract the whole elapsed seconds (guarding `elapsed <= 0`), advance the
anchor by the elapsed amount while time remains, and expire into the alarm at
zero. -/
def tick (r : DailyRecord) (now : Int) : DailyRecord :=
  match r.lastStartedAt, r.remainingSeconds with
  | some last, some rem =>
    if !r.isRunning then r
    else if last == 0 then r
    else
      let elapsed := Int.fdiv (now - last) 1000
      if elapsed ≤ 0 then r
      else
        let nextRemaining := max 0 (rem - elapsed)
        { r with
          remainingSeconds := some nextRemaining
          lastStartedAt := if 0 < nextRemaining then some (last + elapsed * 1000) else none
          isRunning := decide (0 < nextRemaining)
          isAlarming := if nextRemaining == 0 then true else r.isAlarming }
  | _, _ => r

/-- `pauseTimer` of the main page: no-op unless running with non-null remaining
and a truthy anchor; otherwise clamp remaining by the elapsed seconds (note: no
`elapsed <= 0` guard here, unlike `tick`), stop, clear the alarm and anchor. -/
def pauseTimer (r : DailyRecord) (now : Int) : DailyRecord :=
  match r.lastStartedAt, r.remainingSeconds with
  | some last, some rem =>
    if !r.isRunning then r
    else if last == 0 then r
    else
      let elapsed := Int.fdiv (now - last) 1000
      let nextRemaining := max 0 (rem - elapsed)
      { r with
        remainingSeconds := some nextRemaining
        isRunning := false
        isAlarming := false
        lastStartedAt := none }
  | _, _ => r

/-- `finishTimer` of the main page: force remaining to zero, stop, clear the
alarm and anchor, and lock the allocation if it was still null. -/
def finishTimer (r : DailyRecord) (s : Settings) : DailyRecord :=
  { r with
    remainingSeconds := some 0
    isRunning := false
    isAlarming := false
    lastStartedAt := none
    lockedAllocationMinutes :=
      some (r.lockedAllocationMinutes.getD
        (allocationFromChecks r.checks s (isWeekendKey r.date))) }

/-- Read a checklist item. -/
def getCheck (c : DailyChecks) : CheckKey → Bool
  | .prep => c.prep
  | .homework => c.homework
  | .sleep => c.sleep
  | .leave => c.leave

/-- Write a checklist item. -/
def setCheck (c : DailyChecks) (k : CheckKey) (b : Bool) : DailyChecks :=
  match k with
  | .prep => { c with prep := b }
  | .homework => { c with homework := b }
  | .sleep => { c with sleep := b }
  | .leave => { c with leave := b }

/-- `toggleCheck` of the main page: rejected while running, else flip the item. -/
def toggleCheck (r : DailyRecord) (k : CheckKey) : DailyRecord :=
  if r.isRunning then r
  else { r with checks := setCheck r.checks k (!(getCheck r.checks k)) }

/-! ## Record invariants and command sequences -/

/-- The record invariants of the spec: running implies a non-null anchor and
non-null remaining; alarming implies not running; zero remaining implies not
running; remaining is never negative. -/
def RecordInv (r : DailyRecord) : Prop :=
  (r.isRunning = true → r.lastStartedAt.isSome = true ∧ r.remainingSeconds.isSome = true) ∧
  (r.isAlarming = true → r.isRunning = false) ∧
  (r.remainingSeconds = some 0 → r.isRunning = false) ∧
  0 ≤ r.remainingSeconds.getD 0

instance (r : DailyRecord) : Decidable (RecordInv r) := by
  unfold RecordInv
  infer_instance

/-- A countdown command together with the wall-clock instant it is issued at. -/
inductive Cmd
| start (skipConfirm : Bool) (now : Int)
| tick (now : Int)
| pause (now : Int)
| finish
deriving DecidableEq

/-- Apply one command to a record (the settings value feeds the allocation
computation of `start` and `finish`). -/
def applyCmd (s : Settings) (r : DailyRecord) : Cmd → DailyRecord
  | .start skipConfirm now => startTimer r s now skipConfirm
  | .tick now => tick r now
  | .pause now => pauseTimer r now
  | .finish => finishTimer r s

/-! Concrete example values used by the witness and counterexample theorems. -/

/-- An arbitrary weekday (Tuesday 2026-10-06). -/
def sampleDate : CivilDate := { y := 2026, m := 10, d := 6 }

/-- A running record mid-countdown, used to exhibit the unguarded start. -/
def c2RunningRecord : DailyRecord :=
  { date := sampleDate
    checks := { prep := true, homework := true, sleep := true, leave := true }
    carryInSeconds := 0
    lockedAllocationMinutes := some 45
    remainingSeconds := some 100
    isRunning := true
    isAlarming := false
    lastStartedAt := some 1000 }

/-- A running record whose remaining is already zero (effective remaining 0). -/
def c2ExhaustedRecord : DailyRecord :=
  { date := sampleDate
    checks := { prep := true, homework := true, sleep := true, leave := true }
    carryInSeconds := 0
    lockedAllocationMinutes := some 45
    remainingSeconds := some 0
    isRunning := true
    isAlarming := false
    lastStartedAt := some 1000 }

/-- A running record with one minute left, anchored at 5000 ms. -/
def c1SampleRecord : DailyRecord :=
  { date := sampleDate
    checks := defaultChecks
    carryInSeconds := 0
    lockedAllocationMinutes := some 45
    remainingSeconds := some 60
    isRunning := true
    isAlarming := false
    lastStartedAt := some 5000 }

/-- A running record with five seconds left, anchored at 2000 ms. -/
def c3SampleRecord : DailyRecord :=
  { date := sampleDate
    checks := defaultChecks
    carryInSeconds := 0
    lockedAllocationMinutes := some 45
    remainingSeconds := some 5
    isRunning := true
    isAlarming := false
    lastStartedAt := some 2000 }

/-- A running record anchored at 10000 ms with ten seconds left; pausing it at
an earlier instant exhibits the missing negative-elapsed guard. -/
def c6BackdatedRecord : DailyRecord :=
  { date := sampleDate
    checks := defaultChecks
    carryInSeconds := 0
    lockedAllocationMinutes := some 45
    remainingSeconds := some 10
    isRunning := true
    isAlarming := false
    lastStartedAt := some 10000 }

/-- A running record anchored at 1000 ms with twenty seconds left. -/
def c6SampleRecord : DailyRecord :=
  { date := sampleDate
    checks := defaultChecks
    carryInSeconds := 0
    lockedAllocationMinutes := some 45
    remainingSeconds := some 20
    isRunning := true
    isAlarming := false
    lastStartedAt := some 1000 }

/-- A freshly created record, as `createRecordForDate` builds it. -/
def c5FreshRecord : DailyRecord :=
  { date := sampleDate
    checks := defaultChecks
    carryInSeconds := 0
    lockedAllocationMinutes := none
    remainingSeconds := none
    isRunning := false
    isAlarming := false
    lastStartedAt := none }

/-- A command sequence exercising start, tick, pause, restart and finish. -/
def c5SampleCmds : List Cmd :=
  [.start true 1000, .tick 3500, .pause 8000, .start true 9000, .finish]

/-- The date key 2026-10-11 (a Sunday). -/
def c4Today : CivilDate := { y := 2026, m := 10, d := 11 }

/-- A prior-day record holding 600 unused seconds. -/
def c4Yesterday : DailyRecord :=
  { date := { y := 2026, m := 10, d := 10 }
    checks := defaultChecks
    carryInSeconds := 0
    lockedAllocationMinutes := some 45
    remainingSeconds := some 600
    isRunning := false
    isAlarming := false
    lastStartedAt := none }

/-- A records map holding only the 2026-10-10 record. -/
def c4Records : CivilDate → Option DailyRecord :=
  fun k => if k = { y := 2026, m := 10, d := 10 } then some c4Yesterday else none

/-- Default settings with carry-over switched on. -/
def carrySettings : Settings :=
  { DEFAULT_SETTINGS with carryOverEnabled := true }

/-- A stored settings payload carrying explicit weekend minute values. -/
def weekendPayload : Payload :=
  { carryOverEnabled := some (.jbool false)
    parentPin := some (.jstr ("1234"))
    alarmTone := some (.jstr ("beep"))
    alarmVolume := some (.jnum 70)
    fullCompletionMinutes := some (.jnum 45)
    fallbackMinutes := some (.jnum 15)
    fullCompletionMinutesWeekend := some (.jnum 90)
    fallbackMinutesWeekend := some (.jnum 30) }

/-- A stored settings payload whose full-completion minutes are out of range. -/
def overRangePayload : Payload :=
  { carryOverEnabled := none
    parentPin := none
    alarmTone := none
    alarmVolume := none
    fullCompletionMinutes := some (.jnum 250)
    fallbackMinutes := none
    fullCompletionMinutesWeekend := none
    fallbackMinutesWeekend := none }

/-- A checklist with every item done. -/
def fullChecks : DailyChecks :=
  { prep := true, homework := true, sleep := true, leave := true }

/-- The clamped-minutes bounds asserted by the spec for valid configurations. -/
def ValidMinuteSettings (s : Settings) : Prop :=
  1 ≤ s.fullCompletionMinutes ∧ s.fullCompletionMinutes ≤ 180 ∧
  1 ≤ s.fallbackMinutes ∧ s.fallbackMinutes ≤ 180 ∧
  1 ≤ s.fullCompletionMinutesWeekend ∧ s.fullCompletionMinutesWeekend ≤ 180 ∧
  1 ≤ s.fallbackMinutesWeekend ∧ s.fallbackMinutesWeekend ≤ 180

instance (s : Settings) : Decidable (ValidMinuteSettings s) := by
  unfold ValidMinuteSettings
  infer_instance

/-- A payload field that does not hold a number. -/
def noNumValue (v : Option JVal) : Prop :=
  ∀ q, v ≠ some (.jnum q)

/-! Helper lemmas about the countdown arithmetic. -/

/-- Whole elapsed seconds of a millisecond interval `e * 1000 + f` with a
sub-second remainder `f` is exactly `e`. -/
theorem elapsed_eval (last now e f : Int) (h : now - last = e * 1000 + f)
    (hf : 0 ≤ f) (hf2 : f < 1000) : Int.fdiv (now - last) 1000 = e := by
  rw [h, Int.fdiv_eq_ediv _ (by norm_num)]
  omega

/-- A tick with positive elapsed time strictly below the remaining seconds
advances the anchor by the elapsed amount and keeps running. -/
theorem tick_cont (r : DailyRecord) (last rem now e : Int)
    (hA : r.lastStartedAt = some last) (hR : r.remainingSeconds = some rem)
    (hrun : r.isRunning = true) (hlast : last ≠ 0)
    (helap : Int.fdiv (now - last) 1000 = e) (he : 0 < e) (hlt : e < rem) :
    tick r now =
      { r with
        remainingSeconds := some (rem - e)
        lastStartedAt := some (last + e * 1000)
        isRunning := true
        isAlarming := r.isAlarming } := by
  unfold tick
  rw [hA, hR]
  simp only [hrun, Bool.not_true, Bool.false_eq_true, if_false, beq_iff_eq, hlast, helap,
    Int.not_le.mpr he, if_false]
  have hmax : max 0 (rem - e) = rem - e := by omega
  rw [hmax]
  have h1 : (0 < rem - e) = True := by simp; omega
  have h2 : ((rem - e) == 0) = false := by simp [beq_iff_eq]; omega
  simp [h1, h2]
  omega

/-- A tick whose elapsed time reaches the remaining seconds expires the
countdown: zero remaining, stopped, anchor cleared, alarm raised. -/
theorem tick_expire (r : DailyRecord) (last rem now e : Int)
    (hA : r.lastStartedAt = some last) (hR : r.remainingSeconds = some rem)
    (hrun : r.isRunning = true) (hlast : last ≠ 0)
    (helap : Int.fdiv (now - last) 1000 = e) (he : 0 < e) (hge : rem ≤ e) :
    tick r now =
      { r with
        remainingSeconds := some 0
        lastStartedAt := none
        isRunning := false
        isAlarming := true } := by
  unfold tick
  rw [hA, hR]
  simp only [hrun, Bool.not_true, Bool.false_eq_true, if_false, beq_iff_eq, hlast, helap,
    Int.not_le.mpr he, if_false]
  have hmax : max 0 (rem - e) = 0 := by omega
  rw [hmax]
  simp

/-- Pausing a running record clamps the remaining seconds by the (unguarded)
elapsed amount and never raises the alarm. -/
theorem pause_run (r : DailyRecord) (last rem now e : Int)
    (hA : r.lastStartedAt = some last) (hR : r.remainingSeconds = some rem)
    (hrun : r.isRunning = true) (hlast : last ≠ 0)
    (helap : Int.fdiv (now - last) 1000 = e) :
    pauseTimer r now =
      { r with
        remainingSeconds := some (max 0 (rem - e))
        isRunning := false
        isAlarming := false
        lastStartedAt := none } := by
  unfold pauseTimer
  rw [hA, hR]
  simp [hrun, hlast, helap]

/-- With no anchor a tick is a no-op. -/
theorem tick_eq_self_of_anchor_none (r : DailyRecord) (now : Int)
    (h : r.lastStartedAt = none) : tick r now = r := by
  simp [tick, h]

/-- With null remaining a tick is a no-op. -/
theorem tick_eq_self_of_rem_none (r : DailyRecord) (now : Int)
    (h : r.remainingSeconds = none) : tick r now = r := by
  rcases hl : r.lastStartedAt with _ | last <;> simp [tick, h, hl]

/-- On a stopped record a tick is a no-op. -/
theorem tick_eq_self_of_not_running (r : DailyRecord) (now : Int)
    (h : r.isRunning = false) : tick r now = r := by
  rcases hl : r.lastStartedAt with _ | last <;> rcases hr : r.remainingSeconds with _ | rem <;>
    simp [tick, h, hl, hr]

/-- With a falsy (zero) anchor a tick is a no-op. -/
theorem tick_eq_self_of_zero_anchor (r : DailyRecord) (now : Int)
    (h : r.lastStartedAt = some 0) : tick r now = r := by
  rcases hr : r.remainingSeconds with _ | rem <;> simp [tick, h, hr]

/-- With non-positive elapsed seconds a tick is a no-op (the clock-skew guard). -/
theorem tick_eq_self_of_nonpos_elapsed (r : DailyRecord) (now last : Int)
    (hl : r.lastStartedAt = some last) (h : Int.fdiv (now - last) 1000 ≤ 0) :
    tick r now = r := by
  rcases hr : r.remainingSeconds with _ | rem <;> by_cases hz : last = 0 <;>
    simp [tick, hl, hr, hz, h]

/-- With no anchor a pause is a no-op. -/
theorem pause_eq_self_of_anchor_none (r : DailyRecord) (now : Int)
    (h : r.lastStartedAt = none) : pauseTimer r now = r := by
  simp [pauseTimer, h]

/-- With null remaining a pause is a no-op. -/
theorem pause_eq_self_of_rem_none (r : DailyRecord) (now : Int)
    (h : r.remainingSeconds = none) : pauseTimer r now = r := by
  rcases hl : r.lastStartedAt with _ | last <;> simp [pauseTimer, h, hl]

/-- On a stopped record a pause is a no-op. -/
theorem pause_eq_self_of_not_running (r : DailyRecord) (now : Int)
    (h : r.isRunning = false) : pauseTimer r now = r := by
  rcases hl : r.lastStartedAt with _ | last <;> rcases hr : r.remainingSeconds with _ | rem <;>
    simp [pauseTimer, h, hl, hr]

/-- With a falsy (zero) anchor a pause is a no-op. -/
theorem pause_eq_self_of_zero_anchor (r : DailyRecord) (now : Int)
    (h : r.lastStartedAt = some 0) : pauseTimer r now = r := by
  rcases hr : r.remainingSeconds with _ | rem <;> simp [pauseTimer, h, hr]

/-- The minute clamp always lands in `[1, 180]`. -/
theorem clampMinutes_range (q : ℚ) : 1 ≤ clampMinutes q ∧ clampMinutes q ≤ 180 := by
  unfold clampMinutes
  omega

/-- The volume clamp always lands in `[0, 100]`. -/
theorem clampVolume_range (q : ℚ) : 0 ≤ clampVolume q ∧ clampVolume q ≤ 100 := by
  unfold clampVolume
  omega

/-- A minute field loads into `[1, 180]` whenever its default is in range. -/
theorem numField_minutes_range (v : Option JVal) (dflt : Int)
    (hd : 1 ≤ dflt ∧ dflt ≤ 180) :
    1 ≤ numField v clampMinutes dflt ∧ numField v clampMinutes dflt ≤ 180 := by
  unfold numField
  rcases v with _ | pv
  · exact hd
  · rcases pv with _ | b | q | str
    · exact hd
    · exact hd
    · exact clampMinutes_range q
    · exact hd

/-- The volume field loads into `[0, 100]` whenever its default is in range. -/
theorem numField_volume_range (v : Option JVal) (dflt : Int)
    (hd : 0 ≤ dflt ∧ dflt ≤ 100) :
    0 ≤ numField v clampVolume dflt ∧ numField v clampVolume dflt ≤ 100 := by
  unfold numField
  rcases v with _ | pv
  · exact hd
  · rcases pv with _ | b | q | str
    · exact hd
    · exact hd
    · exact clampVolume_range q
    · exact hd

/-- The loaded PIN always passes the 4-digit test. -/
theorem pinField_digits (v : Option JVal) :
    matchesPinRegex (jsToString (pinField v)) = true := by
  rcases v with _ | pv
  · decide
  · by_cases hc : (truthy pv && matchesPinRegex (jsToString pv)) = true
    · have h1 := ((Bool.and_eq_true _ _).mp hc).1
      have h2 := ((Bool.and_eq_true _ _).mp hc).2
      simp [pinField, h1, h2]
    · simp only [pinField, if_neg hc]
      decide

/-- Every single countdown command preserves the record invariants. -/
theorem applyCmd_inv (s : Settings) (r : DailyRecord) (c : Cmd) (h : RecordInv r) :
    RecordInv (applyCmd s r c) := by
  obtain ⟨h1, h2, h3, h4⟩ := h
  cases c with
  | start sc now =>
    show RecordInv (startTimer r s now sc)
    unfold startTimer
    split
    · exact ⟨h1, h2, h3, h4⟩
    · split
      · exact ⟨h1, h2, h3, h4⟩
      · next hbase =>
        refine ⟨fun _ => ⟨rfl, rfl⟩, by simp, ?_, ?_⟩
        · intro hz
          simp only [DailyRecord.mk.injEq] at hz ⊢
          simp at hz
          omega
        · simp
          omega
  | tick now =>
    show RecordInv (tick r now)
    rcases hl : r.lastStartedAt with _ | last
    · rw [tick_eq_self_of_anchor_none r now hl]
      exact ⟨h1, h2, h3, h4⟩
    · rcases hrun : r.isRunning
      · rw [tick_eq_self_of_not_running r now hrun]
        exact ⟨h1, h2, h3, h4⟩
      · rcases hr : r.remainingSeconds with _ | rem
        · rw [tick_eq_self_of_rem_none r now hr]
          exact ⟨h1, h2, h3, h4⟩
        · by_cases hz : last = 0
          · rw [tick_eq_self_of_zero_anchor r now (hz ▸ hl)]
            exact ⟨h1, h2, h3, h4⟩
          · rcases le_or_lt (Int.fdiv (now - last) 1000) 0 with hne | hpos
            · rw [tick_eq_self_of_nonpos_elapsed r now last hl hne]
              exact ⟨h1, h2, h3, h4⟩
            · have halarm : r.isAlarming = false := by
                rcases ha : r.isAlarming
                · rfl
                · exact absurd (h2 ha) (by rw [hrun]; simp)
              rcases lt_or_le (Int.fdiv (now - last) 1000) rem with hlt | hge
              · rw [tick_cont r last rem now _ hl hr hrun hz rfl hpos hlt]
                refine ⟨fun _ => ⟨rfl, rfl⟩, by simp [halarm], ?_, ?_⟩
                · intro hz2
                  simp at hz2
                  omega
                · simp
                  omega
              · rw [tick_expire r last rem now _ hl hr hrun hz rfl hpos hge]
                exact ⟨by simp, fun _ => rfl, fun _ => rfl, by simp⟩
  | pause now =>
    show RecordInv (pauseTimer r now)
    rcases hl : r.lastStartedAt with _ | last
    · rw [pause_eq_self_of_anchor_none r now hl]
      exact ⟨h1, h2, h3, h4⟩
    · rcases hrun : r.isRunning
      · rw [pause_eq_self_of_not_running r now hrun]
        exact ⟨h1, h2, h3, h4⟩
      · rcases hr : r.remainingSeconds with _ | rem
        · rw [pause_eq_self_of_rem_none r now hr]
          exact ⟨h1, h2, h3, h4⟩
        · by_cases hz : last = 0
          · rw [pause_eq_self_of_zero_anchor r now (hz ▸ hl)]
            exact ⟨h1, h2, h3, h4⟩
          · rw [pause_run r last rem now (Int.fdiv (now - last) 1000) hl hr hrun hz rfl]
            refine ⟨by simp, fun _ => rfl, fun _ => rfl, by simp⟩
  | finish =>
    show RecordInv (finishTimer r s)
    exact ⟨by simp [finishTimer], fun hx => by simp [finishTimer] at hx, fun _ => by
      simp [finishTimer], by simp [finishTimer]⟩

/-! Claim theorems. -/

/-- Claim C1: for a running record with remaining `R` and anchor `A`, a tick at
`A + e` seconds (plus any sub-second remainder `f`) with `0 < e < R` yields
remaining `R - e`, keeps running, and advances the anchor to exactly `A + e`
seconds (not to now); a subsequent tick `e2` seconds after the new anchor
yields remaining `R - e - e2`, so repeated partial ticks sum exactly to the
elapsed wall time with no double-count or loss. -/
theorem c1_tick_elapsed_conservation (r : DailyRecord) (A R e f : Int)
    (hrun : r.isRunning = true) (hA : r.lastStartedAt = some A) (hApos : 0 < A)
    (hR : r.remainingSeconds = some R) (he : 0 < e) (heR : e < R)
    (hf : 0 ≤ f) (hf2 : f < 1000) :
    (tick r (A + e * 1000 + f)).remainingSeconds = some (R - e) ∧
    (tick r (A + e * 1000 + f)).isRunning = true ∧
    (tick r (A + e * 1000 + f)).lastStartedAt = some (A + e * 1000) ∧
    (∀ e2 f2, 0 < e2 → e + e2 ≤ R → 0 ≤ f2 → f2 < 1000 →
      (tick (tick r (A + e * 1000 + f)) (A + e * 1000 + e2 * 1000 + f2)).remainingSeconds =
        some (R - e - e2)) := by
  have h1 := tick_cont r A R (A + e * 1000 + f) e hA hR hrun hApos.ne'
    (elapsed_eval A (A + e * 1000 + f) e f (by ring) hf hf2) he heR
  rw [h1]
  refine ⟨rfl, rfl, rfl, ?_⟩
  intro e2 f2 he2 hsum hf2a hf2b
  set r1 : DailyRecord :=
    { r with
      remainingSeconds := some (R - e)
      lastStartedAt := some (A + e * 1000)
      isRunning := true
      isAlarming := r.isAlarming } with hr1
  have hanchor : A + e * 1000 ≠ 0 := by omega
  have helap2 : Int.fdiv (A + e * 1000 + e2 * 1000 + f2 - (A + e * 1000)) 1000 = e2 :=
    elapsed_eval (A + e * 1000) (A + e * 1000 + e2 * 1000 + f2) e2 f2 (by ring) hf2a hf2b
  rcases lt_or_le e2 (R - e) with hcase | hcase
  · rw [tick_cont r1 (A + e * 1000) (R - e) _ e2 rfl rfl rfl hanchor helap2 he2 hcase]
  · rw [tick_expire r1 (A + e * 1000) (R - e) _ e2 rfl rfl rfl hanchor helap2 he2 hcase]
    have : R - e - e2 = 0 := by omega
    rw [this]

/-- Witness for C1: from 60 s remaining anchored at 5000 ms, a 7-second tick
leaves 53 s and a further 3-second tick leaves 50 s. -/
theorem c1_tick_elapsed_conservation_witness :
    (tick c1SampleRecord (5000 + 7 * 1000 + 0)).remainingSeconds = some 53 ∧
    (tick (tick c1SampleRecord (5000 + 7 * 1000 + 0))
      (5000 + 7 * 1000 + 3 * 1000 + 0)).remainingSeconds = some 50 := by
  have h := c1_tick_elapsed_conservation c1SampleRecord 5000 60 7 0 rfl rfl (by decide) rfl
    (by decide) (by decide) (by decide) (by decide)
  refine ⟨h.1, ?_⟩
  have h2 := h.2.2.2 3 0 (by decide) (by decide) (by decide) (by decide)
  norm_num at h2 ⊢
  exact h2

/-- Counterexample for C2: the source has no guard against `startTimer` being
invoked while the record is already running — such a start re-anchors
`lastStartedAt` to now, so the record is not returned unchanged. -/
theorem c2_start_while_running_not_noop :
    c2RunningRecord.isRunning = true ∧
    startTimer c2RunningRecord DEFAULT_SETTINGS 2000 false ≠ c2RunningRecord ∧
    (startTimer c2RunningRecord DEFAULT_SETTINGS 2000 false).lastStartedAt = some 2000 := by
  refine ⟨rfl, ?_, by decide⟩
  decide

/-- Claim C2 (amended): `toggleCheck` while running and `start` with effective
remaining at most 0 are no-ops; start while already running is not guarded. -/
theorem c2_invalid_commands_noop (r : DailyRecord) (s : Settings) (now : Int)
    (k : CheckKey) (sc : Bool) :
    (r.isRunning = true → toggleCheck r k = r) ∧
    (effectiveBaseSeconds r s ≤ 0 → startTimer r s now sc = r) := by
  constructor
  · intro h
    simp [toggleCheck, h]
  · intro h
    simp [startTimer, h]

/-- Witness for C2: on a running record with zero effective remaining, both
invalid commands leave the record unchanged. -/
theorem c2_invalid_commands_noop_witness :
    toggleCheck c2ExhaustedRecord .prep = c2ExhaustedRecord ∧
    startTimer c2ExhaustedRecord DEFAULT_SETTINGS 999 true = c2ExhaustedRecord := by
  have h := c2_invalid_commands_noop c2ExhaustedRecord DEFAULT_SETTINGS 999 .prep true
  exact ⟨h.1 rfl, h.2 (by decide)⟩

/-- Claim C3: from remaining 5, a tick five seconds later expires the countdown
with the alarm raised, while a pause five seconds later zeroes the countdown
with the alarm left off — pause never sets alarming. -/
theorem c3_expiry_alarms_pause_does_not (r : DailyRecord) (A : Int)
    (hrun : r.isRunning = true) (hrem : r.remainingSeconds = some 5)
    (hA : r.lastStartedAt = some A) (hApos : 0 < A) :
    ((tick r (A + 5000)).remainingSeconds = some 0 ∧
     (tick r (A + 5000)).isRunning = false ∧
     (tick r (A + 5000)).lastStartedAt = none ∧
     (tick r (A + 5000)).isAlarming = true) ∧
    ((pauseTimer r (A + 5000)).remainingSeconds = some 0 ∧
     (pauseTimer r (A + 5000)).isRunning = false ∧
     (pauseTimer r (A + 5000)).lastStartedAt = none ∧
     (pauseTimer r (A + 5000)).isAlarming = false) := by
  have helap : Int.fdiv (A + 5000 - A) 1000 = 5 :=
    elapsed_eval A (A + 5000) 5 0 (by ring) (by decide) (by decide)
  have h1 := tick_expire r A 5 (A + 5000) 5 hA hrem hrun hApos.ne' helap (by decide) (by decide)
  have h2 := pause_run r A 5 (A + 5000) 5 hA hrem hrun hApos.ne' helap
  rw [h1, h2]
  norm_num

/-- Witness for C3: the five-second record anchored at 2000 ms, ticked and
paused at 7000 ms. -/
theorem c3_expiry_alarms_pause_does_not_witness :
    (tick c3SampleRecord (2000 + 5000)).isAlarming = true ∧
    (pauseTimer c3SampleRecord (2000 + 5000)).isAlarming = false ∧
    (pauseTimer c3SampleRecord (2000 + 5000)).remainingSeconds = some 0 := by
  have h := c3_expiry_alarms_pause_does_not c3SampleRecord 2000 rfl rfl rfl (by decide)
  exact ⟨h.1.2.2.2, h.2.2.2.2, h.2.1⟩

/-- Claim C4: on a records map with no entry for the date key,
`createRecordForDate` builds a fresh record (cleared checklist, null
allocation, remaining and anchor, not running, not alarming) whose carry-in
seconds equal the prior-day remaining exactly when carry-over is enabled and
that remaining is positive, and 0 otherwise; an existing entry is returned
unchanged, and no other map entry is touched by the store update. -/
theorem c4_rollover_carry_over (dateKey : CivilDate)
    (records : CivilDate → Option DailyRecord) (s : Settings) :
    (∀ e, records dateKey = some e → createRecordForDate dateKey records s = e) ∧
    (records dateKey = none →
      (createRecordForDate dateKey records s).date = dateKey ∧
      (createRecordForDate dateKey records s).checks = defaultChecks ∧
      (createRecordForDate dateKey records s).lockedAllocationMinutes = none ∧
      (createRecordForDate dateKey records s).remainingSeconds = none ∧
      (createRecordForDate dateKey records s).lastStartedAt = none ∧
      (createRecordForDate dateKey records s).isRunning = false ∧
      (createRecordForDate dateKey records s).isAlarming = false ∧
      (∀ y v, records (prevDay dateKey) = some y → y.remainingSeconds = some v →
        s.carryOverEnabled = true → 0 < v →
        (createRecordForDate dateKey records s).carryInSeconds = v) ∧
      (s.carryOverEnabled = false ∨ records (prevDay dateKey) = none →
        (createRecordForDate dateKey records s).carryInSeconds = 0) ∧
      (∀ y, records (prevDay dateKey) = some y →
        (∀ v, y.remainingSeconds = some v → v ≤ 0) →
        (createRecordForDate dateKey records s).carryInSeconds = 0)) ∧
    (∀ k, k ≠ dateKey →
      updateRecords records dateKey (createRecordForDate dateKey records s) k = records k) := by
  refine ⟨?_, ?_, ?_⟩
  · intro e he
    simp [createRecordForDate, he]
  · intro hnone
    simp only [createRecordForDate, hnone]
    refine ⟨trivial, trivial, trivial, trivial, trivial, trivial, trivial, ?_, ?_, ?_⟩
    · intro y v hy hv hc hpos
      simp [hy, hv, hc, hpos, hpos.ne']
    · rintro (hc | hy)
      · rcases hp : records (prevDay dateKey) with _ | y
        · simp [hp]
        · rcases hr : y.remainingSeconds with _ | v
          · simp [hp, hr]
          · simp [hp, hr, hc]
      · simp [hy]
    · intro y hy hv
      rcases hr : y.remainingSeconds with _ | v
      · simp [hy, hr]
      · have := hv v hr
        simp [hy, hr]
        intro hc hvne
        omega
  · intro k hk
    simp [updateRecords, hk]

/-- Witness for C4: with carry-over enabled and 600 s left on 2026-10-10, the
fresh 2026-10-11 record carries in 600 s; with carry-over disabled it carries
0; the prior-day entry survives the store update. -/
theorem c4_rollover_carry_over_witness :
    (createRecordForDate c4Today c4Records carrySettings).carryInSeconds = 600 ∧
    (createRecordForDate c4Today c4Records DEFAULT_SETTINGS).carryInSeconds = 0 ∧
    updateRecords c4Records c4Today (createRecordForDate c4Today c4Records carrySettings)
      { y := 2026, m := 10, d := 10 } = some c4Yesterday := by
  obtain ⟨hex, hfresh, hframe⟩ := c4_rollover_carry_over c4Today c4Records carrySettings
  obtain ⟨-, -, -, -, -, -, -, hcarry, -, -⟩ := hfresh (by decide)
  obtain ⟨-, hfresh2, -⟩ := c4_rollover_carry_over c4Today c4Records DEFAULT_SETTINGS
  obtain ⟨-, -, -, -, -, -, -, -, hzero, -⟩ := hfresh2 (by decide)
  refine ⟨hcarry c4Yesterday 600 (by decide) rfl rfl (by decide), hzero (Or.inl rfl), ?_⟩
  rw [hframe { y := 2026, m := 10, d := 10 } (by decide)]
  decide

/-- Claim C5: the record invariants — running implies non-null anchor and
remaining, alarming implies stopped, zero remaining implies stopped, and
non-negative remaining — are preserved by every sequence of start, tick,
pause and finish commands. -/
theorem c5_invariants_preserved (s : Settings) (cmds : List Cmd) (r : DailyRecord)
    (h : RecordInv r) : RecordInv (cmds.foldl (applyCmd s) r) := by
  induction cmds generalizing r with
  | nil => exact h
  | cons c cs ih => exact ih (applyCmd s r c) (applyCmd_inv s r c h)

/-- Witness for C5: a fresh record run through start, tick, pause, restart and
finish still satisfies the invariants. -/
theorem c5_invariants_preserved_witness :
    RecordInv (c5SampleCmds.foldl (applyCmd DEFAULT_SETTINGS) c5FreshRecord) :=
  c5_invariants_preserved DEFAULT_SETTINGS c5SampleCmds c5FreshRecord (by decide)

/-- Counterexample for C6: `pauseTimer` has no guard against a backwards clock
step — pausing at 4000 ms a record anchored at 10000 ms with 10 s remaining
INCREASES the remaining seconds to 16. -/
theorem c6_pause_backdated_clock_increases_remaining :
    (pauseTimer c6BackdatedRecord 4000).remainingSeconds = some 16 ∧
    ¬((16 : Int) ≤ 10) := by
  decide

/-- Claim C6 (amended): with non-null, non-negative remaining, a single tick,
start or finish at any instant never increases the remaining seconds, and a
pause never increases it provided now is not before the anchor; a pause at an
instant before the anchor can increase it (no negative-elapsed guard). -/
theorem c6_remaining_monotone (r : DailyRecord) (s : Settings) (now : Int) (sc : Bool)
    (v : Int) (hrem : r.remainingSeconds = some v) (hv : 0 ≤ v) :
    ((tick r now).remainingSeconds.getD 0 ≤ v ∧
      ((tick r now).remainingSeconds).isSome = true) ∧
    ((startTimer r s now sc).remainingSeconds.getD 0 ≤ v ∧
      ((startTimer r s now sc).remainingSeconds).isSome = true) ∧
    ((finishTimer r s).remainingSeconds.getD 0 ≤ v ∧
      ((finishTimer r s).remainingSeconds).isSome = true) ∧
    (∀ A, r.lastStartedAt = some A → A ≤ now →
      (pauseTimer r now).remainingSeconds.getD 0 ≤ v ∧
      ((pauseTimer r now).remainingSeconds).isSome = true) ∧
    (r.lastStartedAt = none → pauseTimer r now = r) := by
  refine ⟨?_, ?_, ?_, ?_, ?_⟩
  · rcases hl : r.lastStartedAt with _ | last
    · rw [tick_eq_self_of_anchor_none r now hl, hrem]
      simp [hv]
    · rcases hrun : r.isRunning
      · rw [tick_eq_self_of_not_running r now hrun, hrem]
        simp [hv]
      · by_cases hz : last = 0
        · rw [tick_eq_self_of_zero_anchor r now (hz ▸ hl), hrem]
          simp [hv]
        · rcases le_or_lt (Int.fdiv (now - last) 1000) 0 with hne | hpos
          · rw [tick_eq_self_of_nonpos_elapsed r now last hl hne, hrem]
            simp [hv]
          · rcases lt_or_le (Int.fdiv (now - last) 1000) v with hlt | hge
            · rw [tick_cont r last v now _ hl hrem hrun hz rfl hpos hlt]
              simp
              omega
            · rw [tick_expire r last v now _ hl hrem hrun hz rfl hpos hge]
              simp [hv]
  · unfold startTimer
    split
    · rw [hrem]
      simp [hv]
    · have hbase : effectiveBaseSeconds r s = v := by
        unfold effectiveBaseSeconds
        rw [hrem]
      rw [hbase]
      split
      · rw [hrem]
        simp [hv]
      · simp
  · simp [finishTimer, hv]
  · intro A hA hle
    rcases hrun : r.isRunning
    · rw [pause_eq_self_of_not_running r now hrun, hrem]
      simp [hv]
    · by_cases hz : A = 0
      · rw [pause_eq_self_of_zero_anchor r now (hz ▸ hA), hrem]
        simp [hv]
      · rw [pause_run r A v now (Int.fdiv (now - A) 1000) hA hrem hrun hz rfl]
        have hnn : 0 ≤ Int.fdiv (now - A) 1000 := Int.fdiv_nonneg (by omega) (by norm_num)
        simp
        omega
  · intro hA
    exact pause_eq_self_of_anchor_none r now hA

/-- Witness for C6: ticking and pausing a 20-second record anchored at 1000 ms
at the later instant 3000 ms never increases the remaining seconds. -/
theorem c6_remaining_monotone_witness :
    (tick c6SampleRecord 3000).remainingSeconds.getD 0 ≤ 20 ∧
    (pauseTimer c6SampleRecord 3000).remainingSeconds.getD 0 ≤ 20 := by
  have h := c6_remaining_monotone c6SampleRecord DEFAULT_SETTINGS 3000 true 20 rfl (by decide)
  exact ⟨h.1.1, (h.2.2.2.1 1000 rfl (by decide)).1⟩

/-- Claim C7 (divergence): at the instant 57600000 ms (1970-01-01 16:00 UTC)
the settings page today-key computed in a UTC-offset-zero local zone is
1970-01-01, while the main page Tokyo-calendar today-key is 1970-01-02 — the
two derivations disagree; they agree only when the local zone matches the
Tokyo offset. -/
theorem c7_today_key_divergence :
    getTodayKeyLocal 57600000 0 = "1970-01-01" ∧
    getTodayKeyTokyo 57600000 = "1970-01-02" ∧
    getTodayKeyLocal 57600000 0 ≠ getTodayKeyTokyo 57600000 ∧
    (∀ ms : Int, getTodayKeyLocal ms tokyoOffsetMinutes = getTodayKeyTokyo ms) := by
  refine ⟨by decide, by decide, by decide, fun ms => rfl⟩

/-- Claim C8: the allocation is the full-completion minutes of the applicable
bucket exactly when all four checklist items are true, else the fallback
minutes of that bucket, and for a clamped configuration it always lies in
`[1, 180]`. -/
theorem c8_allocation_determinism (c : DailyChecks) (s : Settings) (w : Bool)
    (hv : ValidMinuteSettings s) :
    (allChecks c = true →
      allocationFromChecks c s w =
        if w then s.fullCompletionMinutesWeekend else s.fullCompletionMinutes) ∧
    (allChecks c = false →
      allocationFromChecks c s w =
        if w then s.fallbackMinutesWeekend else s.fallbackMinutes) ∧
    1 ≤ allocationFromChecks c s w ∧ allocationFromChecks c s w ≤ 180 := by
  obtain ⟨a1, a2, b1, b2, d1, d2, e1, e2⟩ := hv
  unfold allocationFromChecks
  refine ⟨fun h => by rw [h]; simp, fun h => by rw [h]; simp, ?_, ?_⟩ <;>
    split <;> split <;> omega

/-- Witness for C8: a fully complete weekday checklist earns 45 minutes and an
empty weekend checklist earns the weekend fallback 15 minutes. -/
theorem c8_allocation_determinism_witness :
    allocationFromChecks fullChecks DEFAULT_SETTINGS false = 45 ∧
    allocationFromChecks defaultChecks DEFAULT_SETTINGS true = 15 := by
  have h1 := c8_allocation_determinism fullChecks DEFAULT_SETTINGS false (by decide)
  have h2 := c8_allocation_determinism defaultChecks DEFAULT_SETTINGS true (by decide)
  exact ⟨(h1.1 (by decide)).trans (by decide), (h2.2.1 (by decide)).trans (by decide)⟩

/-- Counterexample for C9: an out-of-range stored value is clamped, not
replaced by the documented default — full-completion minutes 250 load as 180,
which is neither the default 45 nor the stored 250. -/
theorem c9_out_of_range_clamped_not_defaulted :
    (loadSettings (.parsed overRangePayload)).fullCompletionMinutes = 180 ∧
    (180 : Int) ≠ 45 ∧ (180 : Int) ≠ 250 := by
  decide

/-- Claim C9 (amended): both loaders always return minute fields in `[1, 180]`,
a volume in `[0, 100]` and a PIN passing the 4-digit test; a missing or
unparsable payload loads as the documented defaults, a missing or wrong-typed
field loads as its default, and an out-of-range numeric value is clamped into
range rather than replaced by the default. -/
theorem c9_settings_normalized (st : Stored) :
    (1 ≤ (loadSettings st).fullCompletionMinutes ∧
      (loadSettings st).fullCompletionMinutes ≤ 180) ∧
    (1 ≤ (loadSettings st).fallbackMinutes ∧ (loadSettings st).fallbackMinutes ≤ 180) ∧
    (1 ≤ (loadSettings st).fullCompletionMinutesWeekend ∧
      (loadSettings st).fullCompletionMinutesWeekend ≤ 180) ∧
    (1 ≤ (loadSettings st).fallbackMinutesWeekend ∧
      (loadSettings st).fallbackMinutesWeekend ≤ 180) ∧
    (0 ≤ (loadSettings st).alarmVolume ∧ (loadSettings st).alarmVolume ≤ 100) ∧
    matchesPinRegex (jsToString (loadSettings st).parentPin) = true ∧
    (1 ≤ (loadSettingsS st).fullCompletionMinutes ∧
      (loadSettingsS st).fullCompletionMinutes ≤ 180) ∧
    (1 ≤ (loadSettingsS st).fallbackMinutes ∧ (loadSettingsS st).fallbackMinutes ≤ 180) ∧
    (0 ≤ (loadSettingsS st).alarmVolume ∧ (loadSettingsS st).alarmVolume ≤ 100) ∧
    matchesPinRegex (jsToString (loadSettingsS st).parentPin) = true ∧
    (st = .missing ∨ st = .unparsable → loadSettings st = DEFAULT_SETTINGS ∧
      loadSettingsS st = DEFAULT_SETTINGS_S) ∧
    (∀ p, st = .parsed p →
      (noNumValue p.fullCompletionMinutes → (loadSettings st).fullCompletionMinutes = 45) ∧
      (∀ q, p.fullCompletionMinutes = some (.jnum q) →
        (loadSettings st).fullCompletionMinutes = clampMinutes q)) := by
  rcases st with _ | _ | p
  · refine ⟨by decide, by decide, by decide, by decide, by decide, by decide, by decide,
      by decide, by decide, by decide, fun _ => ⟨rfl, rfl⟩, ?_⟩
    intro p hp
    exact absurd hp (by simp)
  · refine ⟨by decide, by decide, by decide, by decide, by decide, by decide, by decide,
      by decide, by decide, by decide, fun _ => ⟨rfl, rfl⟩, ?_⟩
    intro p hp
    exact absurd hp (by simp)
  · refine ⟨?_, ?_, ?_, ?_, ?_, ?_, ?_, ?_, ?_, ?_, ?_, ?_⟩
    · exact numField_minutes_range _ _ (by decide)
    · exact numField_minutes_range _ _ (by decide)
    · exact numField_minutes_range _ _ (by decide)
    · exact numField_minutes_range _ _ (by decide)
    · exact numField_volume_range _ _ (by decide)
    · exact pinField_digits _
    · exact numField_minutes_range _ _ (by decide)
    · exact numField_minutes_range _ _ (by decide)
    · exact numField_volume_range _ _ (by decide)
    · exact pinField_digits _
    · rintro (h | h) <;> exact absurd h (by simp)
    · intro p2 hp
      cases hp
      constructor
      · intro hnon
        show numField p.fullCompletionMinutes clampMinutes 45 = 45
        unfold numField
        rcases hv : p.fullCompletionMinutes with _ | pv
        · rfl
        · rcases pv with _ | b | q | str
          · rfl
          · rfl
          · exact absurd hv (hnon q)
          · rfl
      · intro q hq
        show numField p.fullCompletionMinutes clampMinutes 45 = clampMinutes q
        rw [hq]
        rfl

/-- Witness for C9 (amended): the over-range payload still loads in range, and
a missing payload loads as the defaults. -/
theorem c9_settings_normalized_witness :
    (loadSettings (.parsed overRangePayload)).fullCompletionMinutes ≤ 180 ∧
    loadSettings .missing = DEFAULT_SETTINGS := by
  have h1 := c9_settings_normalized (.parsed overRangePayload)
  have h2 := c9_settings_normalized .missing
  exact ⟨h1.1.2, ((h2.2.2.2.2.2.2.2.2.2.2).1 (Or.inl rfl)).1⟩

/-- Claim C10 (divergence): a stored payload carrying weekend minute values 90
and 30 loses them when the settings page loads and re-saves (its settings type
has no weekend fields, so the serialized object omits those keys), and the
main page subsequently loads the defaults 45 and 15 instead. -/
theorem c10_weekend_fields_dropped :
    (loadSettings (.parsed weekendPayload)).fullCompletionMinutesWeekend = 90 ∧
    (loadSettings (.parsed weekendPayload)).fallbackMinutesWeekend = 30 ∧
    (serializeSettingsS (toggleCarry (loadSettingsS (.parsed weekendPayload))
      true)).fullCompletionMinutesWeekend = none ∧
    (serializeSettingsS (toggleCarry (loadSettingsS (.parsed weekendPayload))
      true)).fallbackMinutesWeekend = none ∧
    (loadSettings (.parsed (serializeSettingsS (toggleCarry
      (loadSettingsS (.parsed weekendPayload)) true)))).fullCompletionMinutesWeekend = 45 ∧
    (loadSettings (.parsed (serializeSettingsS (toggleCarry
      (loadSettingsS (.parsed weekendPayload)) true)))).fallbackMinutesWeekend = 15 ∧
    (loadSettings (.parsed (serializeSettingsS (toggleCarry
      (loadSettingsS (.parsed weekendPayload)) true)))).carryOverEnabled = true := by
  decide
